import Mathlib

/-!
Verification of the NBA lineup-archetypes dashboard core
(`src/data/build_archetype_lineups.py` and `src/data/lineup_score.py`).

Shallow embedding conventions:
* Python floats are modelled as exact rationals (`ℚ`).  Comparisons that the
  source performs on derived real-valued quantities (square roots, `atan2`
  angles) are embedded as exact rational tests deciding the same real
  inequality, as documented at each definition.
* The non-finite float (`NaN`/`inf`) produced by pandas when dividing by a
  zero minute sum, and the `NaN` cells produced by a failed left join, are
  modelled as `none : Option ℚ` (see `fdiv` and `left_join`).
* Tabular data is modelled as lists of structures whose field names follow the
  source's column names; only the columns relevant to the verified claims are
  carried, the remaining stat columns being handled identically by the source.
-/

/- ==================================================================
   Geometry primitives (build_archetype_lineups.py lines 19-134)
   ================================================================== -/

/-- `point_in_circle` (line 19): true iff squared distance to the center is
at most the squared radius (the source compares `(px-cx)**2+(py-cy)**2 <= r**2`). -/
def point_in_circle (px py cx cy r : ℚ) : Bool :=
  decide ((px - cx) ^ 2 + (py - cy) ^ 2 ≤ r ^ 2)

/-- One iteration of the ray-casting loop of `point_in_polygon` (lines 29-38),
for the edge `e = ((p1x, p1y), (p2x, p2y))`.  The source's x-intersection
formula is evaluated with total rational division; the horizontal-edge case
(`p1y = p2y`) can never reach the division because the two `py` guards are then
contradictory (see `c9_polygon_no_division_by_zero`). -/
def pipEdge (px py : ℚ) (inside : Bool) : (ℚ × ℚ) × (ℚ × ℚ) → Bool
  | ((p1x, p1y), (p2x, p2y)) =>
    if min p1y p2y < py ∧ py ≤ max p1y p2y ∧ px ≤ max p1x p2x then
      if p1x = p2x then !inside
      else if px ≤ (py - p1y) * (p2x - p1x) / (p2y - p1y) + p1x then !inside
      else inside
    else inside

/-- `point_in_polygon` (line 24): ray casting over the implicitly closed edge
list `(corners[0], corners[1]), ..., (corners[n-1], corners[0])`. -/
def point_in_polygon (px py : ℚ) (corners : List (ℚ × ℚ)) : Bool :=
  (corners.zip (corners.rotate 1)).foldl (pipEdge px py) false

/-- Checked variant of `pipEdge` that makes the source's partiality explicit:
the state carries the last value assigned to the Python variable `xinters`
(`none` while unassigned), the division is performed only under the
`p1y != p2y` guard exactly as in the source, and the whole step returns `none`
if the comparison `px <= xinters` would read `xinters` without it having been
assigned for the current edge (a stale or undefined read). -/
def pipEdgeChecked (px py : ℚ) (st : Bool × Option ℚ) : (ℚ × ℚ) × (ℚ × ℚ) →
    Option (Bool × Option ℚ)
  | ((p1x, p1y), (p2x, p2y)) =>
    if min p1y p2y < py ∧ py ≤ max p1y p2y ∧ px ≤ max p1x p2x then
      if p1x = p2x then
        some (!st.1,
          if p1y ≠ p2y then some ((py - p1y) * (p2x - p1x) / (p2y - p1y) + p1x) else st.2)
      else if p1y ≠ p2y then
        some ((if px ≤ (py - p1y) * (p2x - p1x) / (p2y - p1y) + p1x then !st.1 else st.1),
          some ((py - p1y) * (p2x - p1x) / (p2y - p1y) + p1x))
      else none
    else some (st.1, st.2)

/-- `point_in_polygon` with the explicit undefined-read/division accounting of
`pipEdgeChecked`; `none` would signal a division by zero or a read of an
unassigned `xinters`. -/
def point_in_polygon_checked (px py : ℚ) (corners : List (ℚ × ℚ)) : Option Bool :=
  ((corners.zip (corners.rotate 1)).foldlM (pipEdgeChecked px py) (false, none)).map Prod.fst

/-- Sector of the normalized `atan2` angle `math.atan2 p.2 p.1 % (2*pi)` used
by `point_in_arc_zone` (lines 77-87): sector `0` is angle `0` (`p.2 = 0`,
`0 ≤ p.1`, including the origin, where Python's `atan2` returns `0`), sector
`1` is `(0, pi)` (`0 < p.2`), sector `2` is exactly `pi` (`p.2 = 0`,
`p.1 < 0`), sector `3` is `(pi, 2*pi)` (`p.2 < 0`).  Sectors are numbered in
increasing order of the normalized angle. -/
def atan2Sector (p : ℚ × ℚ) : ℕ :=
  if 0 < p.2 then 1 else if p.2 < 0 then 3 else if 0 ≤ p.1 then 0 else 2

/-- Cross product of two plane vectors. -/
def cross2 (a b : ℚ × ℚ) : ℚ :=
  a.1 * b.2 - a.2 * b.1

/-- Exact rational model of `angle_of a < angle_of b` for the normalized
`atan2` angles of lines 80-87: compare sectors first; within a sector the
angular difference is strictly below `pi`, so the sign of the cross product
decides the comparison exactly. -/
def angleLt (a b : ℚ × ℚ) : Bool :=
  decide (atan2Sector a < atan2Sector b ∨ (atan2Sector a = atan2Sector b ∧ 0 < cross2 a b))

/-- Exact rational model of `angle_of a ≤ angle_of b`, same scheme as `angleLt`. -/
def angleLe (a b : ℚ × ℚ) : Bool :=
  decide (atan2Sector a < atan2Sector b ∨ (atan2Sector a = atan2Sector b ∧ 0 ≤ cross2 a b))

/-- The `angle_in_range` computation of `point_in_arc_zone` (lines 80-93):
whether the normalized angle of `p` about `center` lies between the angles of
the arc corners `ci` and `cj` (wrapping around when `angle_i ≥ angle_j`). -/
def angleInRange (center ci cj p : ℚ × ℚ) : Bool :=
  let vi := (ci.1 - center.1, ci.2 - center.2)
  let vj := (cj.1 - center.1, cj.2 - center.2)
  let vp := (p.1 - center.1, p.2 - center.2)
  if angleLt vi vj then angleLe vi vp && angleLe vp vj
  else angleLe vi vp || angleLe vp vj

/-- Squared distance, the exact content of `dist_to_center ** 2` (line 74). -/
def distSq (px py cx cy : ℚ) : ℚ :=
  (px - cx) ^ 2 + (py - cy) ^ 2

/-- Exact test `sqrt d2 ≥ t` for `d2 ≥ 0`: trivially true for `t ≤ 0`,
otherwise equivalent to `t^2 ≤ d2`. -/
def sqrtGe (d2 t : ℚ) : Bool :=
  decide (t ≤ 0 ∨ t ^ 2 ≤ d2)

/-- Exact test `sqrt d2 < t` for `d2 ≥ 0`. -/
def sqrtLt (d2 t : ℚ) : Bool :=
  decide (0 < t ∧ d2 < t ^ 2)

/-- Exact test `sqrt d2 > t` for `d2 ≥ 0`. -/
def sqrtGt (d2 t : ℚ) : Bool :=
  decide (t < 0 ∨ t ^ 2 < d2)

/-- `point_in_arc_zone` (lines 42-134).  The radial comparisons of the source
(`dist_to_center >= arc_radius - 5`, `abs(dist_to_center - arc_radius) < 30`)
are embedded as the equivalent exact tests on the squared distance.  Note the
small-radius branch: when the `angle_in_range`/`arc_radius - 5` test does not
accept the point, the source falls through to `return in_poly`, which is
reached even when the point is inside the angular range but strictly closer
to the arc center than `arc_radius - 5`. -/
def point_in_arc_zone (px py : ℚ) (corners : List (ℚ × ℚ))
    (arc_between : Option (ℕ × ℕ)) (arc_center : Option (ℚ × ℚ))
    (arc_radius : Option ℚ) : Bool :=
  match arc_between, arc_center, arc_radius with
  | some ij, some c, some r =>
    let ci := corners.getD ij.1 (0, 0)
    let cj := corners.getD ij.2 (0, 0)
    let d2 := distSq px py c.1 c.2
    let inRange := angleInRange c ci cj (px, py)
    let in_poly := point_in_polygon px py corners
    if 150 < r then
      if in_poly then true
      else if inRange && (sqrtLt d2 (r + 30) && sqrtGt d2 (r - 30)) then true
      else false
    else
      if !in_poly then false
      else if inRange && sqrtGe d2 (r - 5) then true
      else in_poly
  | _, _, _ => point_in_polygon px py corners

/- ==================================================================
   Zone catalog and shot zone classifier (lines 137-323)
   ================================================================== -/

/-- Tagged shape of a catalog zone (the source dispatches on the dict key
`zone['type']`, one of `circle`, `polygon`, `arc_zone`). -/
inductive ZoneShape where
  | circle : (ℚ × ℚ) → ℚ → ZoneShape
  | polygon : List (ℚ × ℚ) → ZoneShape
  | arcZone : List (ℚ × ℚ) → ℕ × ℕ → (ℚ × ℚ) → ℚ → ZoneShape

/-- A named court zone of the catalog. -/
structure Zone where
  name : String
  shape : ZoneShape

/-- Corners of the `Close Paint` zone (line 166). -/
def closePaintCorners : List (ℚ × ℚ) :=
  [(-80, -47.5), (80, -47.5), (80, 20), (-80, 20)]

/-- The fixed ordered zone catalog of `get_shot_zone` (lines 155-271). -/
def zones : List Zone :=
  [ ⟨"Restricted Area", .circle (0, 0) 40⟩,
    ⟨"Close Paint", .arcZone closePaintCorners (3, 2) (0, 0) 80⟩,
    ⟨"Far Paint", .arcZone [(-80, 20), (80, 20), (80, 142.5), (-80, 142.5)] (0, 1) (0, 0) 80⟩,
    ⟨"Left Corner 3", .polygon [(-250, -47.5), (-220, -47.5), (-220, 92.5), (-250, 92.5)]⟩,
    ⟨"Right Corner 3", .polygon [(220, -47.5), (250, -47.5), (250, 92.5), (220, 92.5)]⟩,
    ⟨"Left Midrange Close", .polygon [(-160, -47.5), (-80, -47.5), (-80, 92.5), (-160, 92.5)]⟩,
    ⟨"Left Midrange Far", .polygon [(-220, -47.5), (-160, -47.5), (-160, 92.5), (-220, 92.5)]⟩,
    ⟨"Right Midrange Close", .polygon [(80, -47.5), (160, -47.5), (160, 92.5), (80, 92.5)]⟩,
    ⟨"Right Midrange Far", .polygon [(160, -47.5), (220, -47.5), (220, 92.5), (160, 92.5)]⟩,
    ⟨"Center Midrange",
      .arcZone [(-80, 142.5), (80, 142.5), (96, 216), (-96, 216)] (3, 2) (0, 0) 237.5⟩,
    ⟨"Above the Break Center 3",
      .arcZone [(-96, 216), (96, 216), (150, 340), (-150, 340)] (0, 1) (0, 0) 237.5⟩,
    ⟨"Above the Break Left 3",
      .arcZone [(-250, 92.5), (-220, 92.5), (-96, 216), (-150, 340), (-250, 340)]
        (1, 2) (0, 0) 237.5⟩,
    ⟨"Above the Break Right 3",
      .arcZone [(250, 92.5), (250, 340), (150, 340), (96, 216), (220, 92.5)]
        (3, 4) (0, 0) 237.5⟩,
    ⟨"Left Center Midrange",
      .arcZone [(-80, 92.5), (-80, 142.5), (-96, 216), (-220, 92.5)] (3, 2) (0, 0) 237.5⟩,
    ⟨"Right Center Midrange",
      .arcZone [(80, 92.5), (80, 142.5), (96, 216), (220, 92.5)] (2, 3) (0, 0) 237.5⟩ ]

/-- Containment dispatch on a zone's shape (lines 282-293). -/
def zoneMatches (loc_x loc_y : ℚ) (z : Zone) : Bool :=
  match z.shape with
  | .circle c r => point_in_circle loc_x loc_y c.1 c.2 r
  | .polygon cs => point_in_polygon loc_x loc_y cs
  | .arcZone cs ab c r => point_in_arc_zone loc_x loc_y cs (some ab) (some c) (some r)

/-- `get_shot_zone` (lines 137-295): the Restricted Area circle is checked
first unconditionally (lines 273-275); the remaining catalog is walked in
declared order (skipping the Restricted Area entry, line 279-280) and the
first match's name is returned, `none` when no zone matches. -/
def get_shot_zone (loc_x loc_y : ℚ) : Option String :=
  if point_in_circle loc_x loc_y 0 0 40 then some ("Restricted Area")
  else ((zones.filter (fun z => z.name ≠ "Restricted Area")).find?
    (zoneMatches loc_x loc_y)).map Zone.name

/-- A raw shot row: only the coordinate columns that `assign_zones_to_shots`
reads are modelled (the other columns are carried through unchanged). -/
structure ShotRow where
  loc_x : ℚ
  loc_y : ℚ
deriving DecidableEq

/-- A shot row after zone assignment. -/
structure ZonedShot where
  shot : ShotRow
  zone : Option String
deriving DecidableEq

/-- `assign_zones_to_shots` (lines 298-323): drop rows outside
`-47.5 < LOC_Y ≤ 340` (line 315), then add the `ZONE` column by applying the
classifier row-wise (line 322).  The source also prints the dropped-row count,
a pure logging side effect with no effect on the returned table. -/
def assign_zones_to_shots (df : List ShotRow) : List ZonedShot :=
  (df.filter (fun r => decide (-47.5 < r.loc_y) && decide (r.loc_y ≤ 340))).map
    (fun r => { shot := r, zone := get_shot_zone r.loc_x r.loc_y })

/-- An out-of-bounds shot (`loc_y = -50`, below the baseline). -/
def badShot : ShotRow := ⟨0, -50⟩

/-- Example shots table: one in-bounds shot and one below the baseline. -/
def exShots : List ShotRow := [⟨0, 100⟩, badShot]

/- ==================================================================
   Python string ordering and the archetype signature
   ================================================================== -/

/-- Lexicographic comparison of character lists by code point, the exact
order Python's `sorted` uses on the archetype label strings (line 360).
Written as structural recursion so that it evaluates inside the kernel. -/
def lexLe : List Char → List Char → Bool
  | [], _ => true
  | _ :: _, [] => false
  | a :: as, b :: bs =>
    if a < b then true
    else if b < a then false
    else lexLe as bs

/-- Python's `str <= str` (code-point lexicographic order). -/
def pyStrLe (s t : String) : Bool :=
  lexLe s.data t.data

/-- `"-".join(sorted(archetypes))` (line 360): the canonical lineup-archetype
signature. -/
def hyphenJoinSorted (archetypes : List String) : String :=
  String.intercalate ("-") (List.insertionSort (fun a b => pyStrLe a b = true) archetypes)

/- ==================================================================
   Lineup archetype resolver (lines 10, 330-371)
   ================================================================== -/

/-- The fixed all-star allow list (line 10). -/
def ALL_STAR_IDS : List Int :=
  [203999, 201939, 201935, 202695, 2544, 1629029, 203507, 1630162, 1626164, 201142, 1628983]

/-- Split a character list at every occurrence of `sep`, Python's
`str.split(sep)` for a one-character separator. -/
def splitOnChar (sep : Char) (cs : List Char) : List (List Char) :=
  cs.foldr
    (fun c acc =>
      match acc with
      | [] => if c = sep then [[], []] else [[c]]
      | g :: gs => if c = sep then [] :: (g :: gs) else (c :: g) :: gs)
    [[]]

/-- Models Python `int(...)` on the nonnegative decimal player-id tokens that
occur in `GROUP_ID` strings (malformed tokens, on which Python raises
`ValueError`, are outside the scope of the verified claims). -/
def digitsToInt (cs : List Char) : Int :=
  cs.foldl (fun acc c => acc * 10 + ((c.toNat : Int) - (('0').toNat : Int))) 0

/-- `parse_group_ids` (lines 330-331): split the hyphen-joined id string and
parse each token as an integer. -/
def parse_group_ids (group_id : String) : List Int :=
  (splitOnChar ('-') group_id.data).map digitsToInt

/-- Lookup in the `(player_id, season) -> archetype` dict built by
`build_archetype_lineups` (lines 376-380); a Python dict lookup, modelled over
an association list with unique keys. -/
def lookupArchetype (archetype_map : List ((Int × String) × String))
    (key : Int × String) : Option String :=
  (archetype_map.find? (fun p => decide (p.1 = key))).map Prod.snd

/-- `player_name_map.get(star_id)` (line 364). -/
def lookupName (player_name_map : List (Int × String)) (pid : Int) : Option String :=
  (player_name_map.find? (fun p => decide (p.1 = pid))).map Prod.snd

/-- The archetype-resolution loop of `process_lineup_row` (lines 349-355):
look up each teammate's `(player_id, season)`; the Python loop sets the
result to `None` and breaks at the first missing key, which is exactly
`mapM` over `Option`. -/
def resolveArchetypes (archetype_map : List ((Int × String) × String)) (season : String)
    (pids : List Int) : Option (List String) :=
  pids.mapM (fun pid => lookupArchetype archetype_map (pid, season))

/-- `stars_in_lineup` (line 341). -/
def starsInLineup (players : List Int) (all_star_ids : List Int) : List Int :=
  players.filter (fun pid => decide (pid ∈ all_star_ids))

/-- `other_players` (line 346). -/
def othersInLineup (players : List Int) (star_id : Int) : List Int :=
  players.filter (fun pid => decide (pid ≠ star_id))

/-- A raw lineup row as read by `process_lineup_row` (lines 334-336). -/
structure LineupRow where
  SEASON : String
  GROUP_ID : String
  GROUP_NAME : Option String
deriving DecidableEq

/-- An output row of `process_lineup_row` (lines 362-369). -/
structure OutRow where
  ALL_STAR_ID : Int
  ALL_STAR_NAME : Option String
  GROUP_ID : String
  GROUP_NAME : Option String
  LINEUP_ARCHETYPE : String
  SEASON : String
deriving DecidableEq

/-- `process_lineup_row` (lines 333-371): one output row per all-star of the
lineup whose four teammates all resolve; a star whose teammate resolution hits
a missing key contributes nothing (`continue`, line 358).  The `filterMap`
emits rows in the same order as the Python `output_rows.append` loop. -/
def process_lineup_row (row : LineupRow) (all_star_ids : List Int)
    (archetype_map : List ((Int × String) × String))
    (player_name_map : List (Int × String)) : List OutRow :=
  let players := parse_group_ids row.GROUP_ID
  (starsInLineup players all_star_ids).filterMap (fun star_id =>
    (resolveArchetypes archetype_map row.SEASON (othersInLineup players star_id)).map
      (fun archetypes =>
        { ALL_STAR_ID := star_id
          ALL_STAR_NAME := lookupName player_name_map star_id
          GROUP_ID := row.GROUP_ID
          GROUP_NAME := row.GROUP_NAME
          LINEUP_ARCHETYPE := hyphenJoinSorted archetypes
          SEASON := row.SEASON }))

/-- Example lineup row: players 1..5, of which 1 and 2 are all-stars. -/
def exRow5 : LineupRow := ⟨"2022-23", "1-2-3-4-5", none⟩

/-- Example all-star allow list for `exRow5`. -/
def exStars5 : List Int := [1, 2]

/-- Example archetype map: players 2,3,4,5 resolve for the season of `exRow5`,
player 1 does not — so star 1's four teammates all resolve while star 2's
teammate 1 is missing. -/
def exAmap5 : List ((Int × String) × String) :=
  [((2, "2022-23"), "3&D"), ((3, "2022-23"), "Glue Guy"),
   ((4, "2022-23"), "Pure Point Guard"), ((5, "2022-23"), "Rim Runner / Protector")]

/-- Example player-name map. -/
def exPnmap5 : List (Int × String) := [(1, "Star One"), (2, "Star Two")]

/-- The output row that star 2 of `exRow5` would produce were its incomplete
lineup emitted with an empty placeholder signature. -/
def droppedOutRow : OutRow :=
  { ALL_STAR_ID := 2, ALL_STAR_NAME := some ("Star Two"), GROUP_ID := "1-2-3-4-5",
    GROUP_NAME := none, LINEUP_ARCHETYPE := "", SEASON := "2022-23" }

/- ==================================================================
   Aggregation engine (lines 327-328 and 407-469)
   ================================================================== -/

/-- One merged raw row inside a `(ALL_STAR_ID, LINEUP_ARCHETYPE)` group of
`build_efficiency_df` (lines 407-417): the minute weight and the three rating
columns. -/
structure EffInRow where
  MIN : ℚ
  OFF_RATING : ℚ
  DEF_RATING : ℚ
  NET_RATING : ℚ
deriving DecidableEq

/-- One aggregated row of `build_efficiency_df` (lines 419-443); the rating
columns are `Option ℚ` because pandas float division by a zero `min_sum`
produces a non-finite value (`NaN`/`inf`), modelled as `none`. -/
structure EffAggRow where
  offensive_rating : Option ℚ
  defensive_rating : Option ℚ
  net_rating : Option ℚ
  min_sum : ℚ
deriving DecidableEq

/-- Column sum over a group. -/
def sumBy (g : List EffInRow) (f : EffInRow → ℚ) : ℚ :=
  (g.map f).sum

/-- Pandas float division: a zero denominator yields a non-finite value
(`0/0` is `NaN`, `x/0` is `inf`), modelled as `none`; the source has no guard
around it. -/
def fdiv (a b : ℚ) : Option ℚ :=
  if b = 0 then none else some (a / b)

/-- `weighted_mean` (lines 327-328):
`(df[value_col] * df[weight_col]).sum() / df[weight_col].sum()`. -/
def weighted_mean (g : List EffInRow) (value weight : EffInRow → ℚ) : Option ℚ :=
  fdiv (sumBy g (fun r => value r * weight r)) (sumBy g weight)

/-- The per-group aggregation of `build_efficiency_df` (lines 415-443): the
`_weighted_*` product columns are summed per group (lines 419-428) and divided
by `min_sum` (lines 430-443). -/
def build_efficiency_group (g : List EffInRow) : EffAggRow :=
  let min_sum := sumBy g (fun r => r.MIN)
  { offensive_rating := fdiv (sumBy g (fun r => r.MIN * r.OFF_RATING)) min_sum
    defensive_rating := fdiv (sumBy g (fun r => r.MIN * r.DEF_RATING)) min_sum
    net_rating := fdiv (sumBy g (fun r => r.MIN * r.NET_RATING)) min_sum
    min_sum := min_sum }

/-- The synthetic 3-row group of the weighted-mean test property:
`MIN = [10, 20, 30]`, `OFF_RATING = [100, 110, 120]`. -/
def exEffGroup : List EffInRow :=
  [⟨10, 100, 100, 0⟩, ⟨20, 110, 100, 10⟩, ⟨30, 120, 100, 20⟩]

/-- A group whose total minutes are zero. -/
def zeroMinGroup : List EffInRow := [⟨0, 100, 100, 0⟩]

/- ==================================================================
   Scoring engine merge and minutes filter (lineup_score.py lines 17-32,
   94-97)
   ================================================================== -/

/-- A row of the efficiency aggregate table fed to `lineups_scores`
(key columns, one representative stat column, and `min_sum`). -/
structure EfficiencyRow where
  star_player : String
  LINEUP_ARCHETYPE : String
  net_rating : ℚ
  min_sum : ℚ
deriving DecidableEq

/-- A row of the tendencies aggregate table (key columns, one representative
stat column, and its own `min_sum`). -/
structure TendenciesRow where
  star_player : String
  LINEUP_ARCHETYPE : String
  efg_pct : ℚ
  min_sum : ℚ
deriving DecidableEq

/-- A row of the team-vs-opponent aggregate table (key columns, one
representative stat column, and its own `min_sum`). -/
structure TeamVsOppRow where
  star_player : String
  LINEUP_ARCHETYPE : String
  fg_pct : ℚ
  min_sum : ℚ
deriving DecidableEq

/-- pandas `merge(..., how="left")`: each left row is paired with every
matching right row, or with `none` (an all-`NaN` right side) when no right
row matches. -/
def left_join {α β : Type} (ls : List α) (rs : List β) (key_match : α → β → Bool) :
    List (α × Option β) :=
  ls.flatMap (fun l =>
    match rs.filter (key_match l) with
    | [] => [(l, none)]
    | ms => ms.map (fun r => (l, some r)))

/-- Join condition on `(star_player, LINEUP_ARCHETYPE)` for the first merge of
`lineups_scores` (line 28). -/
def effTendMatch (p : EfficiencyRow) (t : TendenciesRow) : Bool :=
  decide (t.star_player = p.star_player) && decide (t.LINEUP_ARCHETYPE = p.LINEUP_ARCHETYPE)

/-- Join condition on `(star_player, LINEUP_ARCHETYPE)` for the second merge of
`lineups_scores` (line 29). -/
def effTvoMatch (p : EfficiencyRow × Option TendenciesRow) (v : TeamVsOppRow) : Bool :=
  decide (v.star_player = p.1.star_player) && decide (v.LINEUP_ARCHETYPE = p.1.LINEUP_ARCHETYPE)

/-- The doubly left-joined frame of `lineups_scores` (lines 26-30).  All three
input tables carry a `min_sum` column, so pandas suffixes the colliding pair
from the first merge (`min_sum_x` from efficiency, `min_sum_y` from
tendencies) and the team-vs-opponent column keeps the unsuffixed name
`min_sum`. -/
structure MergedRow where
  eff : EfficiencyRow
  tend : Option TendenciesRow
  tvo : Option TeamVsOppRow
deriving DecidableEq

/-- The `min_sum_x` column of the merged frame: the efficiency table's. -/
def MergedRow.min_sum_x (r : MergedRow) : ℚ :=
  r.eff.min_sum

/-- The `min_sum_y` column of the merged frame: the tendencies table's
(`NaN`, i.e. `none`, when the left join found no tendencies row). -/
def MergedRow.min_sum_y (r : MergedRow) : Option ℚ :=
  Option.map TendenciesRow.min_sum r.tend

/-- The unsuffixed `min_sum` column of the merged frame — the one read by the
threshold filter (line 32) and by `MIN_CONF` (lines 94-97): the
team-vs-opponent table's (`NaN`, i.e. `none`, after a failed left join). -/
def MergedRow.min_sum (r : MergedRow) : Option ℚ :=
  Option.map TeamVsOppRow.min_sum r.tvo

/-- `MIN_THRESH` (line 31). -/
def MIN_THRESH : ℚ := 55

/-- The merge step of `lineups_scores` (lines 26-30). -/
def merge_all (eff : List EfficiencyRow) (tend : List TendenciesRow)
    (tvo : List TeamVsOppRow) : List MergedRow :=
  (left_join (left_join eff tend effTendMatch) tvo effTvoMatch).map
    (fun p => ⟨p.1.1, p.1.2, p.2⟩)

/-- The row filter `df["min_sum"] >= MIN_THRESH` (line 32); a pandas
comparison against `NaN` is `False`, so a row whose team-vs-opponent join
failed is dropped. -/
def keeps (r : MergedRow) : Bool :=
  match MergedRow.min_sum r with
  | some m => decide (MIN_THRESH ≤ m)
  | none => false

/-- The rows retained by `lineups_scores` (lines 26-32).  The later steps of
`lineups_scores` (z-scores, sub-scores, `MIN_CONF`, `QUALITY_SCORE`, final
sort, lines 34-111) only add derived columns and reorder rows, so membership
in the returned frame is membership here. -/
def lineups_scores_kept (eff : List EfficiencyRow) (tend : List TendenciesRow)
    (tvo : List TeamVsOppRow) : List MergedRow :=
  (merge_all eff tend tvo).filter keeps

/-- The minutes value fed into the `MIN_CONF` confidence discount
(`np.log1p(df["min_sum"])`, lines 94-97): the merged frame's unsuffixed
`min_sum` column. -/
def min_conf_minutes (r : MergedRow) : Option ℚ :=
  MergedRow.min_sum r

/-- Example efficiency table: star A with three lineup signatures. -/
def exEff7 : List EfficiencyRow :=
  [⟨"Star A", "L1", 5, 60⟩, ⟨"Star A", "L2", 8, 60⟩, ⟨"Star A", "L3", 2, 60⟩]

/-- Example tendencies table matching all three signatures. -/
def exTend7 : List TendenciesRow :=
  [⟨"Star A", "L1", 1, 60⟩, ⟨"Star A", "L2", 1, 60⟩, ⟨"Star A", "L3", 1, 60⟩]

/-- Example team-vs-opponent table: `L1` has 40 minutes, `L2` has 60, `L3`
is absent (its left join fails, leaving `min_sum` NaN). -/
def exTvo7 : List TeamVsOppRow :=
  [⟨"Star A", "L1", 1, 40⟩, ⟨"Star A", "L2", 1, 60⟩]

/-- The merged row for signature `L1` (team-vs-opponent `min_sum` 40). -/
def mergedRow40 : MergedRow :=
  ⟨⟨"Star A", "L1", 5, 60⟩, some ⟨"Star A", "L1", 1, 60⟩, some ⟨"Star A", "L1", 1, 40⟩⟩

/-- The merged row for signature `L2` (team-vs-opponent `min_sum` 60). -/
def mergedRow60 : MergedRow :=
  ⟨⟨"Star A", "L2", 8, 60⟩, some ⟨"Star A", "L2", 1, 60⟩, some ⟨"Star A", "L2", 1, 60⟩⟩

/-- The merged row for signature `L3` (failed team-vs-opponent join). -/
def mergedRowNA : MergedRow :=
  ⟨⟨"Star A", "L3", 2, 60⟩, some ⟨"Star A", "L3", 1, 60⟩, none⟩

/- ==================================================================
   Order facts about the Python string order (support for the
   signature-commutativity proof)
   ================================================================== -/

lemma lexLe_total : ∀ as bs : List Char, lexLe as bs = true ∨ lexLe bs as = true := by
  intro as
  induction as with
  | nil => intro bs; left; cases bs <;> rfl
  | cons a as ih =>
    intro bs
    cases bs with
    | nil => right; rfl
    | cons b bs =>
      by_cases h1 : a < b
      · left; simp [lexLe, h1]
      · by_cases h2 : b < a
        · right; simp [lexLe, h1, h2]
        · rcases ih bs with h | h
          · left; simp [lexLe, h1, h2, h]
          · right; simp [lexLe, h1, h2, h]

lemma lexLe_trans : ∀ as bs cs : List Char,
    lexLe as bs = true → lexLe bs cs = true → lexLe as cs = true := by
  intro as
  induction as with
  | nil => intro bs cs _ _; cases cs <;> rfl
  | cons a as ih =>
    intro bs cs h1 h2
    cases bs with
    | nil => simp [lexLe] at h1
    | cons b bs =>
      cases cs with
      | nil => simp [lexLe] at h2
      | cons c cs =>
        by_cases hab : a < b
        · by_cases hbc : b < c
          · simp [lexLe, lt_trans hab hbc]
          · by_cases hcb : c < b
            · simp [lexLe, hbc, hcb] at h2
            · have hbc2 : b = c := le_antisymm (not_lt.mp hcb) (not_lt.mp hbc)
              simp [lexLe, hbc2 ▸ hab]
        · by_cases hba : b < a
          · simp [lexLe, hab, hba] at h1
          · have hab2 : a = b := le_antisymm (not_lt.mp hba) (not_lt.mp hab)
            subst hab2
            by_cases hbc : a < c
            · simp [lexLe, hbc]
            · by_cases hcb : c < a
              · simp [lexLe, hbc, hcb] at h2
              · simp [lexLe, hab, hba] at h1
                simp [lexLe, hbc, hcb] at h2 ⊢
                exact ih bs cs h1 h2

lemma lexLe_antisymm : ∀ as bs : List Char,
    lexLe as bs = true → lexLe bs as = true → as = bs := by
  intro as
  induction as with
  | nil =>
    intro bs _ h2
    cases bs with
    | nil => rfl
    | cons b bs => simp [lexLe] at h2
  | cons a as ih =>
    intro bs h1 h2
    cases bs with
    | nil => simp [lexLe] at h1
    | cons b bs =>
      by_cases hab : a < b
      · simp [lexLe, hab, asymm hab] at h2
      · by_cases hba : b < a
        · simp [lexLe, hab, hba] at h1
        · have hab2 : a = b := le_antisymm (not_lt.mp hba) (not_lt.mp hab)
          subst hab2
          simp [lexLe, hab, hba] at h1 h2
          rw [ih bs h1 h2]

instance : IsTotal String (fun a b => pyStrLe a b = true) :=
  ⟨fun a b => lexLe_total a.data b.data⟩

instance : IsTrans String (fun a b => pyStrLe a b = true) :=
  ⟨fun a b c => lexLe_trans a.data b.data c.data⟩

instance : IsAntisymm String (fun a b => pyStrLe a b = true) :=
  ⟨fun a b h1 h2 => by
    cases a; cases b
    exact congrArg String.mk (lexLe_antisymm _ _ h1 h2)⟩

/- ==================================================================
   C9: the polygon test never divides by zero nor reads `xinters`
   before assignment
   ================================================================== -/

lemma pipEdgeChecked_eq_pipEdge (px py : ℚ) (st : Bool × Option ℚ) (e : (ℚ × ℚ) × (ℚ × ℚ)) :
    ∃ x, pipEdgeChecked px py st e = some (pipEdge px py st.1 e, x) := by
  obtain ⟨⟨p1x, p1y⟩, p2x, p2y⟩ := e
  unfold pipEdgeChecked pipEdge
  dsimp only
  by_cases hg : min p1y p2y < py ∧ py ≤ max p1y p2y ∧ px ≤ max p1x p2x
  · have hne : p1y ≠ p2y := by
      intro hgeq
      rcases hg with ⟨h1, h2, -⟩
      rw [hgeq] at h1 h2
      rw [min_self] at h1
      rw [max_self] at h2
      exact absurd (lt_of_lt_of_le h1 h2) (lt_irrefl _)
    rw [if_pos hg, if_pos hg]
    by_cases hx : p1x = p2x
    · rw [if_pos hx, if_pos hx, if_pos hne]
      exact ⟨_, rfl⟩
    · rw [if_neg hx, if_neg hx, if_pos hne]
      exact ⟨_, rfl⟩
  · rw [if_neg hg, if_neg hg]
    exact ⟨st.2, rfl⟩

lemma foldlM_pipEdgeChecked (px py : ℚ) (edges : List ((ℚ × ℚ) × (ℚ × ℚ))) :
    ∀ b xo, ∃ x, edges.foldlM (pipEdgeChecked px py) (b, xo)
      = some (edges.foldl (pipEdge px py) b, x) := by
  induction edges with
  | nil => intro b xo; exact ⟨xo, rfl⟩
  | cons e es ih =>
    intro b xo
    obtain ⟨x1, hx1⟩ := pipEdgeChecked_eq_pipEdge px py (b, xo) e
    obtain ⟨x2, hx2⟩ := ih (pipEdge px py b e) x1
    exact ⟨x2, by rw [List.foldlM_cons, hx1, Option.bind_eq_bind, Option.some_bind, hx2,
      List.foldl_cons]⟩

/-- C9: for every point and every corner list of at least 3 vertices, the
ray-casting loop evaluates the x-intersection formula only on edges with
`p1y ≠ p2y`, so it never divides by zero and never reads `xinters` before it
has been assigned for the current edge, and it returns a boolean for every
input: the checked evaluation never signals an error and agrees with the
total embedding `point_in_polygon`. -/
theorem c9_polygon_no_division_by_zero (px py : ℚ) (corners : List (ℚ × ℚ))
    (_h : 3 ≤ corners.length) :
    point_in_polygon_checked px py corners = some (point_in_polygon px py corners) := by
  obtain ⟨x, hx⟩ := foldlM_pipEdgeChecked px py (corners.zip (corners.rotate 1)) false none
  unfold point_in_polygon_checked point_in_polygon
  rw [hx]
  rfl

/-- C9 witness: the theorem applied to a concrete triangle and query point. -/
theorem c9_polygon_witness :
    3 ≤ ([((0 : ℚ), (0 : ℚ)), (10, 0), (0, 10)] : List (ℚ × ℚ)).length
    ∧ point_in_polygon_checked 2 1 [((0 : ℚ), (0 : ℚ)), (10, 0), (0, 10)]
        = some (point_in_polygon 2 1 [((0 : ℚ), (0 : ℚ)), (10, 0), (0, 10)]) :=
  ⟨by decide, c9_polygon_no_division_by_zero 2 1 _ (by decide)⟩

/- ==================================================================
   C1: the small-radius (paint) branch of point_in_arc_zone
   ================================================================== -/

lemma small_arc_eq_polygon (px py : ℚ) (corners : List (ℚ × ℚ)) (ij : ℕ × ℕ)
    (c : ℚ × ℚ) (r : ℚ) (hr : r ≤ 150) :
    point_in_arc_zone px py corners (some ij) (some c) (some r)
      = point_in_polygon px py corners := by
  unfold point_in_arc_zone
  dsimp only
  rw [if_neg (not_lt.mpr hr)]
  cases hp : point_in_polygon px py corners
  · simp [hp]
  · simp [hp]

/-- C1: the claim states that for paint arcs (`arc_radius ≤ 150`) a point
inside the polygon, inside the arc's angular sector, and strictly closer to
the arc center than `arc_radius - 5` is NOT in the zone.  The code disagrees:
its final `return in_poly` is reached in exactly that case, so the
small-radius branch degenerates to the bare polygon test, and the concrete
point `(50, 10)` — inside the Close Paint polygon, inside its angular sector,
at distance `sqrt 2600 < 75` from the arc center — is reported in-zone. -/
theorem c1_paint_arc_ignores_arc_cutoff :
    (∀ (px py : ℚ) (corners : List (ℚ × ℚ)) (ij : ℕ × ℕ) (c : ℚ × ℚ) (r : ℚ), r ≤ 150 →
      point_in_arc_zone px py corners (some ij) (some c) (some r)
        = point_in_polygon px py corners)
    ∧ point_in_polygon 50 10 closePaintCorners = true
    ∧ angleInRange (0, 0) (-80, 20) (80, 20) (50, 10) = true
    ∧ distSq 50 10 0 0 < (80 - 5 : ℚ) ^ 2
    ∧ point_in_arc_zone 50 10 closePaintCorners (some (3, 2)) (some (0, 0)) (some 80)
        = true := by
  have hpoly : point_in_polygon 50 10 closePaintCorners = true := by
    norm_num [point_in_polygon, pipEdge, closePaintCorners, List.rotate]
  refine ⟨small_arc_eq_polygon, hpoly, ?_, ?_, ?_⟩
  · norm_num [angleInRange, angleLt, angleLe, atan2Sector, cross2]
  · norm_num [distSq]
  · rw [small_arc_eq_polygon 50 10 closePaintCorners (3, 2) (0, 0) 80 (by norm_num)]
    exact hpoly

/-- C1 witness: the degeneration applied at the Close Paint arc parameters. -/
theorem c1_paint_arc_witness :
    (80 : ℚ) ≤ 150
    ∧ point_in_arc_zone 50 10 closePaintCorners (some (3, 2)) (some (0, 0)) (some 80)
        = point_in_polygon 50 10 closePaintCorners :=
  ⟨by norm_num,
   c1_paint_arc_ignores_arc_cutoff.1 50 10 closePaintCorners (3, 2) (0, 0) 80 (by norm_num)⟩

/- ==================================================================
   C3: Restricted Area priority
   ================================================================== -/

/-- C3: every point with `x^2 + y^2 ≤ 40^2` is classified `Restricted Area`,
regardless of which other catalog zones also contain it. -/
theorem c3_restricted_area_priority (x y : ℚ) (h : x ^ 2 + y ^ 2 ≤ 40 ^ 2) :
    get_shot_zone x y = some ("Restricted Area") := by
  have hc : point_in_circle x y 0 0 40 = true := by
    simp only [point_in_circle, decide_eq_true_eq, sub_zero]
    exact h
  simp [get_shot_zone, hc]

/-- C3 witness: the hoop itself is in the Restricted Area. -/
theorem c3_restricted_area_witness :
    (0 : ℚ) ^ 2 + 0 ^ 2 ≤ 40 ^ 2 ∧ get_shot_zone 0 0 = some ("Restricted Area") :=
  ⟨by norm_num, c3_restricted_area_priority 0 0 (by norm_num)⟩

/- ==================================================================
   C2: minutes-weighted means of the efficiency aggregation
   ================================================================== -/

lemma sumBy_mul_comm (g : List EffInRow) (f : EffInRow → ℚ) :
    sumBy g (fun r => r.MIN * f r) = sumBy g (fun r => f r * r.MIN) := by
  unfold sumBy
  induction g with
  | nil => rfl
  | cons r g ih => simp only [List.map_cons, List.sum_cons, ih, mul_comm]

/-- C2: for every group with positive total minutes, each aggregated rating
equals the minutes-weighted mean `sum (S_i * MIN_i) / sum MIN_i`, agrees
with the source's `weighted_mean`, and `min_sum` is the group's minute sum;
on the synthetic 3-row group with `MIN = [10,20,30]` and
`OFF_RATING = [100,110,120]` the aggregated offensive rating is exactly
`6800 / 60 = 340/3 = 113.33...`. -/
theorem c2_weighted_mean_correct :
    (∀ g : List EffInRow, 0 < sumBy g (fun r => r.MIN) →
      (build_efficiency_group g).offensive_rating
          = some (sumBy g (fun r => r.OFF_RATING * r.MIN) / sumBy g (fun r => r.MIN))
      ∧ (build_efficiency_group g).defensive_rating
          = some (sumBy g (fun r => r.DEF_RATING * r.MIN) / sumBy g (fun r => r.MIN))
      ∧ (build_efficiency_group g).net_rating
          = some (sumBy g (fun r => r.NET_RATING * r.MIN) / sumBy g (fun r => r.MIN))
      ∧ (build_efficiency_group g).min_sum = sumBy g (fun r => r.MIN)
      ∧ (build_efficiency_group g).offensive_rating
          = weighted_mean g (fun r => r.OFF_RATING) (fun r => r.MIN))
    ∧ (build_efficiency_group exEffGroup).offensive_rating = some (340 / 3) := by
  constructor
  · intro g h
    have hne : sumBy g (fun r => r.MIN) ≠ 0 := ne_of_gt h
    refine ⟨?_, ?_, ?_, rfl, ?_⟩
    · show fdiv (sumBy g (fun r => r.MIN * r.OFF_RATING)) (sumBy g (fun r => r.MIN)) = _
      rw [sumBy_mul_comm g (fun r => r.OFF_RATING), fdiv, if_neg hne]
    · show fdiv (sumBy g (fun r => r.MIN * r.DEF_RATING)) (sumBy g (fun r => r.MIN)) = _
      rw [sumBy_mul_comm g (fun r => r.DEF_RATING), fdiv, if_neg hne]
    · show fdiv (sumBy g (fun r => r.MIN * r.NET_RATING)) (sumBy g (fun r => r.MIN)) = _
      rw [sumBy_mul_comm g (fun r => r.NET_RATING), fdiv, if_neg hne]
    · show fdiv (sumBy g (fun r => r.MIN * r.OFF_RATING)) (sumBy g (fun r => r.MIN)) = _
      rw [weighted_mean, sumBy_mul_comm g (fun r => r.OFF_RATING)]
  · norm_num [build_efficiency_group, sumBy, fdiv, exEffGroup]

/-- C2 witness: the weighted-mean equations applied to the synthetic group. -/
theorem c2_weighted_mean_witness :
    0 < sumBy exEffGroup (fun r => r.MIN)
    ∧ (build_efficiency_group exEffGroup).min_sum = sumBy exEffGroup (fun r => r.MIN) :=
  ⟨by norm_num [sumBy, exEffGroup],
   (c2_weighted_mean_correct.1 exEffGroup (by norm_num [sumBy, exEffGroup])).2.2.2.1⟩

/- ==================================================================
   C8: behavior on a zero-minutes group
   ================================================================== -/

/-- C8 counterexample: the claim demands a descriptive error or a consistent
`0` for a zero-minutes group; the code instead emits the aggregate row with
non-finite (`NaN`/`inf`, modelled `none`) ratings — not `some 0` — and gives
the caller no signal (the aggregation is a total function returning the row). -/
theorem c8_zero_minutes_counterexample :
    (build_efficiency_group zeroMinGroup).min_sum = 0
    ∧ (build_efficiency_group zeroMinGroup).offensive_rating = none
    ∧ (build_efficiency_group zeroMinGroup).offensive_rating ≠ some 0 := by
  refine ⟨?_, ?_, ?_⟩
  · norm_num [build_efficiency_group, sumBy, fdiv, zeroMinGroup]
  · norm_num [build_efficiency_group, sumBy, fdiv, zeroMinGroup]
  · norm_num [build_efficiency_group, sumBy, fdiv, zeroMinGroup]
    exact fun hcontra => Option.noConfusion hcontra

/-- C8 (amended): for every group whose minutes sum to zero, the aggregation
raises no error and emits the row, with `min_sum = 0` and all three rating
aggregates non-finite (`none`), silently. -/
theorem c8_zero_minutes_behavior (g : List EffInRow)
    (h : sumBy g (fun r => r.MIN) = 0) :
    (build_efficiency_group g).min_sum = 0
    ∧ (build_efficiency_group g).offensive_rating = none
    ∧ (build_efficiency_group g).defensive_rating = none
    ∧ (build_efficiency_group g).net_rating = none := by
  simp [build_efficiency_group, fdiv, h]

/-- C8 witness: the amended behavior at the concrete zero-minutes group. -/
theorem c8_zero_minutes_witness :
    sumBy zeroMinGroup (fun r => r.MIN) = 0
    ∧ (build_efficiency_group zeroMinGroup).offensive_rating = none :=
  ⟨by norm_num [sumBy, zeroMinGroup],
   (c8_zero_minutes_behavior zeroMinGroup (by norm_num [sumBy, zeroMinGroup])).2.1⟩

/- ==================================================================
   C4: sorted, permutation-invariant archetype signatures
   ================================================================== -/

/-- C4: every emitted row's `LINEUP_ARCHETYPE` is the hyphen-joined
lexicographic sort of the four resolved teammate archetypes; the signature is
invariant under any permutation of the teammates' archetype list; and the
concrete four-archetype example sorts to
`3&D-Glue Guy-Pure Point Guard-Rim Runner / Protector`. -/
theorem c4_signature_sorted_commutative :
    (∀ (row : LineupRow) (all_star_ids : List Int)
       (amap : List ((Int × String) × String)) (pnmap : List (Int × String)) (o : OutRow),
       o ∈ process_lineup_row row all_star_ids amap pnmap →
       ∃ archetypes,
         resolveArchetypes amap row.SEASON
             (othersInLineup (parse_group_ids row.GROUP_ID) o.ALL_STAR_ID) = some archetypes
         ∧ o.LINEUP_ARCHETYPE = hyphenJoinSorted archetypes)
    ∧ (∀ l1 l2 : List String, l1.Perm l2 → hyphenJoinSorted l1 = hyphenJoinSorted l2)
    ∧ hyphenJoinSorted ["Glue Guy", "Rim Runner / Protector", "3&D", "Pure Point Guard"]
        = "3&D-Glue Guy-Pure Point Guard-Rim Runner / Protector" := by
  refine ⟨?_, ?_, by decide⟩
  · intro row all_star_ids amap pnmap o ho
    simp only [process_lineup_row] at ho
    obtain ⟨star, hstar, hf⟩ := List.mem_filterMap.mp ho
    rw [Option.map_eq_some'] at hf
    obtain ⟨archetypes, hres, ho2⟩ := hf
    subst ho2
    exact ⟨archetypes, hres, rfl⟩
  · intro l1 l2 hp
    unfold hyphenJoinSorted
    congr 1
    exact List.eq_of_perm_of_sorted
      ((List.perm_insertionSort _ l1).trans (hp.trans (List.perm_insertionSort _ l2).symm))
      (List.sorted_insertionSort _ l1) (List.sorted_insertionSort _ l2)

/-- C4 witness: a concrete permutation of the four example archetypes yields
the same signature. -/
theorem c4_signature_witness :
    (["Rim Runner / Protector", "3&D", "Pure Point Guard", "Glue Guy"] : List String).Perm
        ["Glue Guy", "Rim Runner / Protector", "3&D", "Pure Point Guard"]
    ∧ hyphenJoinSorted ["Rim Runner / Protector", "3&D", "Pure Point Guard", "Glue Guy"]
        = hyphenJoinSorted ["Glue Guy", "Rim Runner / Protector", "3&D", "Pure Point Guard"] :=
  ⟨by decide, c4_signature_sorted_commutative.2.1 _ _ (by decide)⟩

/- ==================================================================
   C5: missing archetype drops the (star, lineup) pair silently
   ================================================================== -/

/-- C5: if any of a star's four teammates has no archetype entry for the
season, no output row is emitted for that star (no partial signature, no
placeholder — and no error, the resolver being a total function), while stars
of the same raw row whose teammates all resolve are still emitted. -/
theorem c5_missing_archetype_drops_pair (row : LineupRow) (all_star_ids : List Int)
    (amap : List ((Int × String) × String)) (pnmap : List (Int × String)) (star : Int)
    (_hmem : star ∈ starsInLineup (parse_group_ids row.GROUP_ID) all_star_ids)
    (hnone : resolveArchetypes amap row.SEASON
        (othersInLineup (parse_group_ids row.GROUP_ID) star) = none) :
    (∀ o ∈ process_lineup_row row all_star_ids amap pnmap, o.ALL_STAR_ID ≠ star)
    ∧ (∀ star2 ∈ starsInLineup (parse_group_ids row.GROUP_ID) all_star_ids,
        ∀ archetypes, resolveArchetypes amap row.SEASON
            (othersInLineup (parse_group_ids row.GROUP_ID) star2) = some archetypes →
        ∃ o ∈ process_lineup_row row all_star_ids amap pnmap, o.ALL_STAR_ID = star2) := by
  constructor
  · intro o ho heq
    simp only [process_lineup_row] at ho
    obtain ⟨s, hs, hf⟩ := List.mem_filterMap.mp ho
    rw [Option.map_eq_some'] at hf
    obtain ⟨archetypes, hres, ho2⟩ := hf
    subst ho2
    have hs2 : s = star := heq
    rw [hs2, hnone] at hres
    exact Option.noConfusion hres
  · intro star2 hs2 archetypes hres
    refine ⟨{ ALL_STAR_ID := star2, ALL_STAR_NAME := lookupName pnmap star2,
              GROUP_ID := row.GROUP_ID, GROUP_NAME := row.GROUP_NAME,
              LINEUP_ARCHETYPE := hyphenJoinSorted archetypes, SEASON := row.SEASON },
            ?_, rfl⟩
    simp only [process_lineup_row]
    refine List.mem_filterMap.mpr ⟨star2, hs2, ?_⟩
    rw [hres]
    rfl

/-- C5 witness: in `exRow5`, star 2's teammate 1 has no archetype entry, so no
row with `ALL_STAR_ID = 2` is emitted (in particular not `droppedOutRow`). -/
theorem c5_missing_archetype_witness :
    (2 : Int) ∈ starsInLineup (parse_group_ids exRow5.GROUP_ID) exStars5
    ∧ droppedOutRow ∉ process_lineup_row exRow5 exStars5 exAmap5 exPnmap5 :=
  ⟨by decide,
   fun hmem =>
     (c5_missing_archetype_drops_pair exRow5 exStars5 exAmap5 exPnmap5 2
       (by decide) (by decide)).1 droppedOutRow hmem rfl⟩

/- ==================================================================
   C6: out-of-bounds shots are dropped entirely
   ================================================================== -/

lemma mem_assign_zones (df : List ShotRow) (z : ZonedShot)
    (hz : z ∈ assign_zones_to_shots df) :
    -47.5 < z.shot.loc_y ∧ z.shot.loc_y ≤ 340 := by
  unfold assign_zones_to_shots at hz
  obtain ⟨r, hr, hzr⟩ := List.mem_map.mp hz
  have hcond := (List.mem_filter.mp hr).2
  rw [Bool.and_eq_true, decide_eq_true_eq, decide_eq_true_eq] at hcond
  rw [← hzr]
  exact hcond

/-- C6: every row retained by `assign_zones_to_shots` satisfies
`-47.5 < LOC_Y ≤ 340`, and a row outside those bounds is absent from the
output entirely — no output row carries it, not even with a null `ZONE`. -/
theorem c6_bounds_filtering (df : List ShotRow) :
    (∀ z ∈ assign_zones_to_shots df, -47.5 < z.shot.loc_y ∧ z.shot.loc_y ≤ 340)
    ∧ (∀ r : ShotRow, (r.loc_y ≤ -47.5 ∨ 340 < r.loc_y) →
        ∀ z ∈ assign_zones_to_shots df, z.shot ≠ r) := by
  refine ⟨fun z hz => mem_assign_zones df z hz, ?_⟩
  intro r hr z hz heq
  obtain ⟨h1, h2⟩ := mem_assign_zones df z hz
  rw [heq] at h1 h2
  rcases hr with h | h
  · exact absurd (lt_of_lt_of_le h1 h) (lt_irrefl _)
  · exact absurd (lt_of_le_of_lt h2 h) (lt_irrefl _)

/-- C6 witness: the shot at `loc_y = -50` is absent from the zoned output of
the example table, even as an unzoned row. -/
theorem c6_bounds_witness :
    badShot.loc_y ≤ -47.5
    ∧ ({ shot := badShot, zone := none } : ZonedShot) ∉ assign_zones_to_shots exShots :=
  ⟨by norm_num [badShot],
   fun hmem => (c6_bounds_filtering exShots).2 badShot (Or.inl (by norm_num [badShot]))
     { shot := badShot, zone := none } hmem rfl⟩

/- ==================================================================
   C7: the min_sum ≥ 55 sample-size floor
   ================================================================== -/

/-- C7: a merged row survives into the scored output iff it is in the merged
frame and its (team-vs-opponent) `min_sum` passes the `≥ 55` filter; a present
`min_sum = m` passes iff `55 ≤ m` — so the example lineup with `min_sum = 40`
is absent from the scored output and the one with `min_sum = 60` is present. -/
theorem c7_min_sum_threshold :
    (∀ (eff : List EfficiencyRow) (tend : List TendenciesRow) (tvo : List TeamVsOppRow)
       (r : MergedRow),
       r ∈ lineups_scores_kept eff tend tvo ↔ r ∈ merge_all eff tend tvo ∧ keeps r = true)
    ∧ (∀ (r : MergedRow) (m : ℚ), MergedRow.min_sum r = some m →
        (keeps r = true ↔ MIN_THRESH ≤ m))
    ∧ mergedRow40 ∉ lineups_scores_kept exEff7 exTend7 exTvo7
    ∧ mergedRow60 ∈ lineups_scores_kept exEff7 exTend7 exTvo7 := by
  refine ⟨?_, ?_, by decide, by decide⟩
  · intro eff tend tvo r
    exact List.mem_filter
  · intro r m hm
    simp [keeps, hm]

/-- C7 witness: the threshold equivalence applied to the present example row. -/
theorem c7_min_sum_witness :
    MergedRow.min_sum mergedRow60 = some 60
    ∧ (keeps mergedRow60 = true ↔ MIN_THRESH ≤ 60) :=
  ⟨rfl, c7_min_sum_threshold.2.1 mergedRow60 60 rfl⟩

/- ==================================================================
   C10: which of the three min_sum columns the filter and MIN_CONF read
   ================================================================== -/

/-- C10: both the `≥ 55` filter (`keeps`) and the `MIN_CONF` minutes input
read only the merged frame's unsuffixed `min_sum`, i.e. the team-vs-opponent
table's minute column (`none` after a failed left join, which the filter
treats as failing); consequently a merged row whose efficiency-side
`min_sum_x` passes the threshold but whose team-vs-opponent `min_sum` does not
(below 55 or null) is excluded from the scored output. -/
theorem c10_min_sum_column_provenance :
    (∀ r : MergedRow,
      min_conf_minutes r = Option.map TeamVsOppRow.min_sum r.tvo
      ∧ keeps r = (Option.map TeamVsOppRow.min_sum r.tvo).elim false
          (fun m => decide (MIN_THRESH ≤ m)))
    ∧ (∀ (eff : List EfficiencyRow) (tend : List TendenciesRow) (tvo : List TeamVsOppRow)
       (r : MergedRow), r ∈ merge_all eff tend tvo → MIN_THRESH ≤ MergedRow.min_sum_x r →
       keeps r = false → r ∉ lineups_scores_kept eff tend tvo) := by
  constructor
  · intro r
    refine ⟨rfl, ?_⟩
    rcases r with ⟨e, t, v⟩
    cases v <;> rfl
  · intro eff tend tvo r _hmem _hx hk hcontra
    have hkt := (List.mem_filter.mp hcontra).2
    rw [hk] at hkt
    exact Bool.false_ne_true hkt

/-- C10 witness: the example row whose efficiency `min_sum_x` is 60 but whose
team-vs-opponent join failed is excluded from the scored output. -/
theorem c10_min_sum_witness :
    mergedRowNA ∈ merge_all exEff7 exTend7 exTvo7
    ∧ MIN_THRESH ≤ MergedRow.min_sum_x mergedRowNA
    ∧ keeps mergedRowNA = false
    ∧ mergedRowNA ∉ lineups_scores_kept exEff7 exTend7 exTvo7 :=
  ⟨by decide, by decide, by decide,
   c10_min_sum_column_provenance.2 exEff7 exTend7 exTvo7 mergedRowNA
     (by decide) (by decide) (by decide)⟩
